import Mathlib

/-!
Verification of the selection/workflow logic of `main.py` (mcqsnap): a
shallow embedding of `ConfigManager`, `AIHelper` and the
`ScreenshotWindow` event handlers, with theorems settling the spec's
testable properties against the embedded code.

Conventions of the embedding:
* Qt integer geometry (`QPoint`, `QRect`) follows Qt 6 semantics, the
  toolkit PySide6 binds: a `QRect` built from two corner points stores
  the raw corner coordinates, `width = x2 - x1 + 1`, and `normalized`
  swaps a corner pair when `x2 < x1` (resp. `y2 < y1`).
* Python truthiness of an optional string (`os.environ.get(...)`,
  `api_key`) is `pyTruthyStr`: `None` and `""` are falsy.
* Python truthiness of an optional `QPoint` (`self.start_pos`) is
  `pyTruthyPoint`: only `None` is falsy.
* The file system and dialogs are explicit state/parameters; the
  observable effects of `process_screenshot` are recorded in an
  append-only `trace` of `WinAction`s.
-/

/-- A Qt integer point, as stored in `self.start_pos` / `self.end_pos`. -/
structure QPoint where
  x : Int
  y : Int
deriving DecidableEq, Repr

/-- A Qt integer rectangle in corner representation, as `QRect` stores it:
`x1,y1` the recorded top-left corner, `x2,y2` the recorded bottom-right
corner (Qt 6, `qrect.h`). -/
structure QRect where
  x1 : Int
  y1 : Int
  x2 : Int
  y2 : Int
deriving DecidableEq, Repr

/-- The constructor `QRect(topLeft, bottomRight)` used at `main.py:184` and
`main.py:201`: stores the two corners verbatim. -/
def QRect.fromPoints (topLeft bottomRight : QPoint) : QRect :=
  ⟨topLeft.x, topLeft.y, bottomRight.x, bottomRight.y⟩

/-- Qt width convention: `width() = x2 - x1 + 1`. -/
def QRect.width (r : QRect) : Int :=
  r.x2 - r.x1 + 1

/-- Qt height convention: `height() = y2 - y1 + 1`. -/
def QRect.height (r : QRect) : Int :=
  r.y2 - r.y1 + 1

/-- `QRect::normalized()` (Qt 6): swap the x corners when `x2 < x1` and the
y corners when `y2 < y1`. -/
def QRect.normalized (r : QRect) : QRect :=
  let xs := if r.x2 < r.x1 then (r.x2, r.x1) else (r.x1, r.x2)
  let ys := if r.y2 < r.y1 then (r.y2, r.y1) else (r.y1, r.y2)
  ⟨xs.1, ys.1, xs.2, ys.2⟩

/-! ## ConfigManager (`main.py:20-73`) -/

/-- The state `ConfigManager` reads and writes: the `OPENAI_API_KEY`
environment variable (`none` when unset) and the contents of the
credential file `openai_api_key.txt` (`none` when the file is absent). -/
structure ConfigEnv where
  envApiKey : Option String
  keyFile : Option String
deriving DecidableEq, Repr

/-- Python truthiness of an optional string: `None` and the empty string
are falsy, every other string is truthy. -/
def pyTruthyStr : Option String → Bool
  | none => false
  | some s => !s.isEmpty

/-- The ASCII whitespace characters Python's `str.strip()` removes. -/
def isPySpace (c : Char) : Bool :=
  c == ' ' || c == '\t' || c == '\n' || c == '\r' || c == '\x0b' || c == '\x0c'

/-- Python's `str.strip()`: drop leading and trailing whitespace. -/
def pyStrip (s : String) : String :=
  ⟨((s.data.dropWhile isPySpace).reverse.dropWhile isPySpace).reverse⟩

/-- `ConfigManager.load_api_key` (`main.py:35-43`): return the environment
variable when it is truthy, otherwise the stripped contents of the key
file when it exists, otherwise `None`. -/
def load_api_key (c : ConfigEnv) : Option String :=
  if pyTruthyStr c.envApiKey then
    c.envApiKey
  else
    match c.keyFile with
    | some contents => some (pyStrip contents)
    | none => none

/-- `ConfigManager.save_api_key` (`main.py:45-49`): `write_text(api_key)`
replaces the file contents with the key string verbatim. -/
def save_api_key (api_key : String) (c : ConfigEnv) : ConfigEnv :=
  { c with keyFile := some api_key }

/-- Outcome of the interactive key dialog in `initialize_api_key`:
either the user accepted with some text (`dialog.textValue()`), or the
dialog was cancelled. -/
inductive PromptResult where
  | accepted (text : String)
  | cancelled
deriving DecidableEq, Repr

/-- How `ConfigManager.initialize_api_key` terminates: `sys.exit(code)` or
a returned key string. -/
inductive InitOutcome where
  | exited (code : Nat)
  | returned (key : String)
deriving DecidableEq, Repr

/-- Result of running `initialize_api_key`: its outcome, the final
configuration state, and the arguments of every `save_api_key` call it
made. -/
structure InitResult where
  outcome : InitOutcome
  config : ConfigEnv
  saveCalls : List String
deriving DecidableEq, Repr

/-- `ConfigManager.initialize_api_key` (`main.py:51-73`): load the key; if
falsy, prompt (a cancelled dialog yields `""`); if the prompted key is
falsy, show the critical box and `sys.exit(1)`; otherwise save and return
it. -/
def initialize_api_key (c : ConfigEnv) (prompt : PromptResult) : InitResult :=
  let loaded := load_api_key c
  if pyTruthyStr loaded then
    { outcome := InitOutcome.returned (loaded.getD ""), config := c, saveCalls := [] }
  else
    let api_key := match prompt with
      | PromptResult.accepted t => t
      | PromptResult.cancelled => ""
    if api_key.isEmpty then
      { outcome := InitOutcome.exited 1, config := c, saveCalls := [] }
    else
      { outcome := InitOutcome.returned api_key
        config := save_api_key api_key c
        saveCalls := [api_key] }

/-! ## AIHelper (`main.py:76-116`) -/

/-- The message object inside a chat-completion choice. -/
structure Message where
  content : String
deriving DecidableEq, Repr

/-- One choice of a chat-completion response. -/
structure Choice where
  message : Message
deriving DecidableEq, Repr

/-- A chat-completion response: its list of choices. -/
structure Response where
  choices : List Choice
deriving DecidableEq, Repr

/-- `AIHelper.analyze_mcq` (`main.py:96-116`), parametrised by the result
of the underlying `client.chat.completions.create` exchange: an exception
(`Except.error` with the exception text) or a `Response`. Any exception
inside the `try` block — including the `IndexError` from
`response.choices[0]` on an empty choice list — is re-raised as
`RuntimeError("AI analysis failed: {e}")`; on success the text of the
first choice is returned unchanged. -/
def analyze_mcq (exchange : Except String Response) : Except String String :=
  match exchange with
  | Except.error e => Except.error ("AI analysis failed: " ++ e)
  | Except.ok resp =>
    match resp.choices with
    | [] => Except.error ("AI analysis failed: " ++ "list index out of range")
    | choice :: _ => Except.ok choice.message.content

/-! ## ScreenshotWindow (`main.py:138-221`) -/

/-- Observable actions performed by the screenshot workflow, in the order
they happen. -/
inductive WinAction where
  | setOverrideCursor
  | crop (rect : QRect)
  | encode
  | analyzeCall
  | restoreCursor
  | openResponseWindow
  | errorDialog (msg : String)
  | closeWindow
deriving DecidableEq, Repr

/-- Mouse buttons distinguished by the handlers (`Qt.LeftButton` against
everything else). -/
inductive MouseButton where
  | left
  | other
deriving DecidableEq, Repr

/-- Input events delivered to an open `ScreenshotWindow`. -/
inductive Event where
  | mousePress (button : MouseButton) (pos : QPoint)
  | mouseMove (pos : QPoint)
  | mouseRelease (button : MouseButton)
  | keyEscape
  | keyOther
deriving DecidableEq, Repr

/-- State of a `ScreenshotWindow`: the three instance attributes set in
`__init__` (`main.py:151-153`), whether the window has been closed, the
depth of the application override-cursor stack (`setOverrideCursor`
pushes, `restoreOverrideCursor` pops; nonzero depth is the busy cursor),
and the trace of observable actions so far. -/
structure WinState where
  selection_started : Bool
  start_pos : Option QPoint
  end_pos : Option QPoint
  closed : Bool
  overrideCursorDepth : Nat
  trace : List WinAction
deriving DecidableEq, Repr

/-- Python truthiness of an optional `QPoint`: `None` is falsy, any point
object is truthy. -/
def pyTruthyPoint : Option QPoint → Bool
  | none => false
  | some _ => true

/-- The fresh window state after `__init__` (`main.py:141-153`). -/
def initialWinState : WinState :=
  { selection_started := false
    start_pos := none
    end_pos := none
    closed := false
    overrideCursorDepth := 0
    trace := [] }

/-- `self.close()`: marks the window closed; closing an already-closed
window changes nothing observable. -/
def closeWin (s : WinState) : WinState :=
  if s.closed then s
  else { s with closed := true, trace := s.trace ++ [WinAction.closeWindow] }

/-- `ScreenshotWindow.process_screenshot` (`main.py:197-221`),
parametrised by the result of the network exchange that
`self.ai_helper.analyze_mcq` wraps. Under the guard
`if self.start_pos and self.end_pos:` it sets the wait cursor, crops the
normalized selection rectangle, encodes it, calls `analyze_mcq`, and on
success restores the cursor and opens a `ResponseWindow` while on
exception it restores the cursor and shows the error dialog with the
exception text; in both cases it then closes the window. -/
def process_screenshot (s : WinState) (exchange : Except String Response) : WinState :=
  if pyTruthyPoint s.start_pos && pyTruthyPoint s.end_pos then
    let selection_rect :=
      (QRect.fromPoints (s.start_pos.getD ⟨0, 0⟩) (s.end_pos.getD ⟨0, 0⟩)).normalized
    let s1 := { s with
      overrideCursorDepth := s.overrideCursorDepth + 1
      trace := s.trace ++
        [WinAction.setOverrideCursor, WinAction.crop selection_rect, WinAction.encode,
         WinAction.analyzeCall] }
    let s2 := match analyze_mcq exchange with
      | Except.ok _ =>
        { s1 with
          overrideCursorDepth := s1.overrideCursorDepth - 1
          trace := s1.trace ++ [WinAction.restoreCursor, WinAction.openResponseWindow] }
      | Except.error msg =>
        { s1 with
          overrideCursorDepth := s1.overrideCursorDepth - 1
          trace := s1.trace ++ [WinAction.restoreCursor, WinAction.errorDialog msg] }
    closeWin s2
  else s

/-- One event delivered to the window: the four handlers
`mousePressEvent` (`main.py:155-159`), `mouseMoveEvent`
(`main.py:161-164`), `mouseReleaseEvent` (`main.py:166-170`) and
`keyPressEvent` (`main.py:193-195`). A closed window receives no further
events. -/
def step (s : WinState) (exchange : Except String Response) (e : Event) : WinState :=
  if s.closed then s
  else
    match e with
    | Event.mousePress b p =>
      if b = MouseButton.left then
        { s with selection_started := true, start_pos := some p, end_pos := some p }
      else s
    | Event.mouseMove p =>
      if s.selection_started then { s with end_pos := some p } else s
    | Event.mouseRelease b =>
      if b = MouseButton.left && s.selection_started then
        closeWin (process_screenshot { s with selection_started := false } exchange)
      else s
    | Event.keyEscape => closeWin s
    | Event.keyOther => s

/-- Deliver a sequence of events to the window. -/
def run (s : WinState) (exchange : Except String Response) (evs : List Event) : WinState :=
  evs.foldl (fun st e => step st exchange e) s

/-- The normalized selection rectangle that `paintEvent` re-draws
unmasked and outlines (`main.py:184`). -/
def paintSelectionRect (start_pos end_pos : QPoint) : QRect :=
  (QRect.fromPoints start_pos end_pos).normalized

/-- The normalized selection rectangle that `process_screenshot` crops
out of the captured pixmap (`main.py:201`). -/
def cropSelectionRect (start_pos end_pos : QPoint) : QRect :=
  (QRect.fromPoints start_pos end_pos).normalized

/-! ## Theorems -/

/-- C2: whenever both the `OPENAI_API_KEY` environment variable and the
credential file are present and non-empty, `load_api_key` returns the
environment variable's value, not the file's contents. -/
theorem claim2_env_precedence (c : ConfigEnv) (v f : String)
    (henv : c.envApiKey = some v) (hv : v ≠ "")
    (hfile : c.keyFile = some f) (hf : f ≠ "") :
    load_api_key c = some v := by
  have hv2 : v.isEmpty = false := by
    cases hveq : v.isEmpty
    · rfl
    · exact absurd (String.isEmpty_iff v |>.mp hveq) hv
  simp [load_api_key, pyTruthyStr, henv, hv2]

/-- Witness for C2 at a concrete configuration. -/
theorem claim2_env_precedence_witness :
    (⟨some "env-key", some "file-key"⟩ : ConfigEnv).envApiKey = some "env-key"
    ∧ "env-key" ≠ ""
    ∧ (⟨some "env-key", some "file-key"⟩ : ConfigEnv).keyFile = some "file-key"
    ∧ "file-key" ≠ ""
    ∧ load_api_key ⟨some "env-key", some "file-key"⟩ = some "env-key" :=
  ⟨rfl, by decide, rfl, by decide,
   claim2_env_precedence ⟨some "env-key", some "file-key"⟩ "env-key" "file-key"
     rfl (by decide) rfl (by decide)⟩

/-- C3: with no key in the environment and no credential file, a cancelled
or empty interactive prompt makes `initialize_api_key` exit with status 1;
`save_api_key` is never called and the configuration state is unchanged. -/
theorem claim3_empty_prompt_exits (c : ConfigEnv) (prompt : PromptResult)
    (henv : c.envApiKey = none) (hfile : c.keyFile = none)
    (hp : prompt = PromptResult.cancelled ∨ prompt = PromptResult.accepted "") :
    initialize_api_key c prompt
      = { outcome := InitOutcome.exited 1, config := c, saveCalls := [] } := by
  obtain ⟨ce, cf⟩ := c
  cases henv
  cases hfile
  rcases hp with h | h <;> subst h <;>
    simp [initialize_api_key, load_api_key, pyTruthyStr] <;> decide

/-- Witness for C3 at a concrete configuration and prompt. -/
theorem claim3_empty_prompt_exits_witness :
    (⟨none, none⟩ : ConfigEnv).envApiKey = none
    ∧ (⟨none, none⟩ : ConfigEnv).keyFile = none
    ∧ initialize_api_key ⟨none, none⟩ PromptResult.cancelled
        = { outcome := InitOutcome.exited 1, config := ⟨none, none⟩, saveCalls := [] } :=
  ⟨rfl, rfl,
   claim3_empty_prompt_exits ⟨none, none⟩ PromptResult.cancelled rfl rfl (Or.inl rfl)⟩

/-- C4 counterexample: `save_api_key` writes the key string verbatim, so
after saving a key with surrounding whitespace the credential file does
not contain the trimmed key string as the claim states. -/
theorem claim4_counterexample :
    (save_api_key " sk-test " ⟨none, some "old"⟩).keyFile = some " sk-test "
    ∧ pyStrip " sk-test " = "sk-test"
    ∧ (save_api_key " sk-test " ⟨none, some "old"⟩).keyFile
        ≠ some (pyStrip " sk-test ") := by
  refine ⟨rfl, by decide, ?_⟩
  decide

/-- C4 amended: after `save_api_key k`, the credential file contains
exactly the key string `k` as passed, with no trimming; the environment
variable is untouched. (Trimming is applied only when the file is read
back by `load_api_key`.) -/
theorem claim4_save_writes_verbatim (api_key : String) (c : ConfigEnv) :
    (save_api_key api_key c).keyFile = some api_key
    ∧ (save_api_key api_key c).envApiKey = c.envApiKey :=
  ⟨rfl, rfl⟩

/-- C7: for any two recorded drag points, the normalized selection
rectangle has non-negative width and height, whatever the drag
direction. -/
theorem claim7_normalized_nonneg (p q : QPoint) (h : p ≠ q) :
    0 ≤ ((QRect.fromPoints p q).normalized).width
    ∧ 0 ≤ ((QRect.fromPoints p q).normalized).height := by
  simp only [QRect.fromPoints, QRect.normalized, QRect.width, QRect.height]
  constructor <;> dsimp only <;> split_ifs <;> dsimp only <;> omega

/-- Witness for C7 at a concrete pair of distinct points (an up-left
drag). -/
theorem claim7_normalized_nonneg_witness :
    (⟨9, 7⟩ : QPoint) ≠ ⟨2, 3⟩
    ∧ (0 ≤ ((QRect.fromPoints ⟨9, 7⟩ ⟨2, 3⟩).normalized).width
        ∧ 0 ≤ ((QRect.fromPoints ⟨9, 7⟩ ⟨2, 3⟩).normalized).height) :=
  ⟨by decide, claim7_normalized_nonneg ⟨9, 7⟩ ⟨2, 3⟩ (by decide)⟩

/-- C8: every failing exchange makes `analyze_mcq` surface exactly one
wrapped failure whose message carries the underlying error text — this
includes the malformed empty-choices response — and a successful exchange
returns the first choice's text unchanged. -/
theorem claim8_analyze_mcq_wraps_errors :
    (∀ e : String, analyze_mcq (Except.error e)
        = Except.error ("AI analysis failed: " ++ e))
    ∧ analyze_mcq (Except.ok ⟨[]⟩)
        = Except.error ("AI analysis failed: " ++ "list index out of range")
    ∧ ∀ (choice : Choice) (rest : List Choice),
        analyze_mcq (Except.ok ⟨choice :: rest⟩) = Except.ok choice.message.content :=
  ⟨fun _ => rfl, rfl, fun _ _ => rfl⟩

/-- C9: with the environment variable unset, saving any key and loading
again returns the trimmed key, whatever the file held before. -/
theorem claim9_save_load_roundtrip (k : String) (c : ConfigEnv)
    (henv : c.envApiKey = none) :
    load_api_key (save_api_key k c) = some (pyStrip k) := by
  simp [load_api_key, save_api_key, pyTruthyStr, henv]

/-- Witness for C9 at a concrete key with surrounding whitespace over a
non-empty prior file. -/
theorem claim9_save_load_roundtrip_witness :
    (⟨none, some "prior"⟩ : ConfigEnv).envApiKey = none
    ∧ load_api_key (save_api_key " abc " ⟨none, some "prior"⟩) = some (pyStrip " abc ") :=
  ⟨rfl, claim9_save_load_roundtrip " abc " ⟨none, some "prior"⟩ rfl⟩

/-- A closed window receives no further events: `step` is the identity. -/
lemma step_of_closed (s : WinState) (x : Except String Response) (e : Event)
    (h : s.closed = true) : step s x e = s := by
  simp [step, h]

/-- A closed window receives no further events: `run` is the identity. -/
lemma run_of_closed (s : WinState) (x : Except String Response) (evs : List Event)
    (h : s.closed = true) : run s x evs = s := by
  induction evs generalizing s with
  | nil => rfl
  | cons e rest ih =>
    show run (step s x e) x rest = s
    rw [step_of_closed s x e h]
    exact ih s h

/-- Delivering one event and then the rest. -/
lemma run_cons (s : WinState) (x : Except String Response) (e : Event)
    (evs : List Event) : run s x (e :: evs) = run (step s x e) x evs :=
  rfl

/-- Delivering a concatenation of event lists is delivering one after the
other. -/
lemma run_append (s : WinState) (x : Except String Response)
    (l1 l2 : List Event) : run s x (l1 ++ l2) = run (run s x l1) x l2 := by
  unfold run
  exact List.foldl_append _ _ _ _

/-- Any event other than a left-button release leaves the override-cursor
depth unchanged and at most appends a `closeWindow` action to the
trace. -/
lemma step_quiet (s : WinState) (x : Except String Response) (e : Event)
    (h : e ≠ Event.mouseRelease MouseButton.left) :
    (step s x e).overrideCursorDepth = s.overrideCursorDepth
    ∧ ((step s x e).trace = s.trace
        ∨ (step s x e).trace = s.trace ++ [WinAction.closeWindow]) := by
  cases hcl : s.closed
  · cases e with
    | mousePress b p => cases b <;> simp [step, hcl]
    | mouseMove p => cases hsel : s.selection_started <;> simp [step, hcl, hsel]
    | mouseRelease b =>
      cases b with
      | left => exact absurd rfl h
      | other => simp [step, hcl]
    | keyEscape => simp [step, closeWin, hcl]
    | keyOther => simp [step, hcl]
  · rw [step_of_closed s x e hcl]
    exact ⟨rfl, Or.inl rfl⟩

/-- `step_quiet`, extended over an event list containing no left-button
release: the depth is unchanged and every trace entry is an old one or a
`closeWindow`. -/
lemma run_quiet (s : WinState) (x : Except String Response) (evs : List Event)
    (h : ∀ e ∈ evs, e ≠ Event.mouseRelease MouseButton.left) :
    (run s x evs).overrideCursorDepth = s.overrideCursorDepth
    ∧ ∀ a ∈ (run s x evs).trace, a ∈ s.trace ∨ a = WinAction.closeWindow := by
  induction evs generalizing s with
  | nil => exact ⟨rfl, fun a ha => Or.inl ha⟩
  | cons e rest ih =>
    have he : e ≠ Event.mouseRelease MouseButton.left := h e (List.mem_cons_self e rest)
    have hq := step_quiet s x e he
    have hrest := ih (step s x e) (fun e2 h2 => h e2 (List.mem_cons_of_mem e h2))
    rw [run_cons]
    refine ⟨by rw [hrest.1, hq.1], ?_⟩
    intro a ha
    rcases hrest.2 a ha with h2 | h2
    · rcases hq.2 with h3 | h3
      · rw [h3] at h2
        exact Or.inl h2
      · rw [h3] at h2
        rcases List.mem_append.mp h2 with h4 | h4
        · exact Or.inl h4
        · right
          simpa using h4
    · exact Or.inr h2

/-- C6: in any event sequence delivered to a fresh `ScreenshotWindow` in
which Escape arrives before any left-button release, the window ends
closed, no analysis call is ever made, and the busy (override) cursor is
never set, hence never left busy. -/
theorem claim6_escape_before_release (evs pre post : List Event)
    (x : Except String Response)
    (hsplit : evs = pre ++ Event.keyEscape :: post)
    (hpre : ∀ e ∈ pre, e ≠ Event.mouseRelease MouseButton.left) :
    (run initialWinState x evs).closed = true
    ∧ (run initialWinState x evs).overrideCursorDepth = 0
    ∧ WinAction.analyzeCall ∉ (run initialWinState x evs).trace
    ∧ WinAction.setOverrideCursor ∉ (run initialWinState x evs).trace := by
  subst hsplit
  rw [run_append]
  have hq := run_quiet initialWinState x pre hpre
  set s1 := run initialWinState x pre with hs1
  have hs1tr : ∀ a ∈ s1.trace, a = WinAction.closeWindow := by
    intro a ha
    rcases hq.2 a ha with h2 | h2
    · simp [initialWinState] at h2
    · exact h2
  have hs1d : s1.overrideCursorDepth = 0 := hq.1
  have hesc : (step s1 x Event.keyEscape).closed = true
      ∧ (step s1 x Event.keyEscape).overrideCursorDepth = 0
      ∧ ∀ a ∈ (step s1 x Event.keyEscape).trace, a = WinAction.closeWindow := by
    cases hcl : s1.closed
    · refine ⟨?_, ?_, ?_⟩
      · simp [step, closeWin, hcl]
      · simp [step, closeWin, hcl, hs1d]
      · intro a ha
        simp only [step, closeWin, hcl, Bool.false_eq_true, if_false] at ha
        rcases List.mem_append.mp ha with h2 | h2
        · exact hs1tr a h2
        · simpa using h2
    · rw [step_of_closed s1 x Event.keyEscape hcl]
      exact ⟨hcl, hs1d, hs1tr⟩
  rw [run_cons, run_of_closed _ x post hesc.1]
  refine ⟨hesc.1, hesc.2.1, fun hmem => ?_, fun hmem => ?_⟩
  · simpa using hesc.2.2 _ hmem
  · simpa using hesc.2.2 _ hmem

/-- Witness for C6: press at (4,5), drag, Escape, then a (now ignored)
left-button release. -/
theorem claim6_escape_before_release_witness :
    ([Event.mousePress MouseButton.left ⟨4, 5⟩, Event.mouseMove ⟨6, 6⟩,
        Event.keyEscape, Event.mouseRelease MouseButton.left]
      = [Event.mousePress MouseButton.left ⟨4, 5⟩, Event.mouseMove ⟨6, 6⟩]
          ++ Event.keyEscape :: [Event.mouseRelease MouseButton.left])
    ∧ ((run initialWinState (Except.ok ⟨[⟨⟨"ans"⟩⟩]⟩)
        [Event.mousePress MouseButton.left ⟨4, 5⟩, Event.mouseMove ⟨6, 6⟩,
         Event.keyEscape, Event.mouseRelease MouseButton.left]).closed = true
      ∧ (run initialWinState (Except.ok ⟨[⟨⟨"ans"⟩⟩]⟩)
          [Event.mousePress MouseButton.left ⟨4, 5⟩, Event.mouseMove ⟨6, 6⟩,
           Event.keyEscape, Event.mouseRelease MouseButton.left]).overrideCursorDepth = 0
      ∧ WinAction.analyzeCall ∉ (run initialWinState (Except.ok ⟨[⟨⟨"ans"⟩⟩]⟩)
          [Event.mousePress MouseButton.left ⟨4, 5⟩, Event.mouseMove ⟨6, 6⟩,
           Event.keyEscape, Event.mouseRelease MouseButton.left]).trace
      ∧ WinAction.setOverrideCursor ∉ (run initialWinState (Except.ok ⟨[⟨⟨"ans"⟩⟩]⟩)
          [Event.mousePress MouseButton.left ⟨4, 5⟩, Event.mouseMove ⟨6, 6⟩,
           Event.keyEscape, Event.mouseRelease MouseButton.left]).trace) :=
  ⟨rfl,
   claim6_escape_before_release
     [Event.mousePress MouseButton.left ⟨4, 5⟩, Event.mouseMove ⟨6, 6⟩,
      Event.keyEscape, Event.mouseRelease MouseButton.left]
     [Event.mousePress MouseButton.left ⟨4, 5⟩, Event.mouseMove ⟨6, 6⟩]
     [Event.mouseRelease MouseButton.left]
     (Except.ok ⟨[⟨⟨"ans"⟩⟩]⟩) rfl (by decide)⟩

/-- C1 counterexample: a click with no drag at (10,10) — press and
release with no movement, so the recorded start and end points are equal
— still performs the crop, the encoding and the `analyze_mcq` call; and
the normalized rectangle built from the equal points is 1×1, not
zero-area. -/
theorem claim1_counterexample :
    ((run initialWinState (Except.ok ⟨[⟨⟨"answer"⟩⟩]⟩)
        [Event.mousePress MouseButton.left ⟨10, 10⟩,
         Event.mouseRelease MouseButton.left]).start_pos
      = some ⟨10, 10⟩)
    ∧ ((run initialWinState (Except.ok ⟨[⟨⟨"answer"⟩⟩]⟩)
        [Event.mousePress MouseButton.left ⟨10, 10⟩,
         Event.mouseRelease MouseButton.left]).end_pos
      = some ⟨10, 10⟩)
    ∧ WinAction.analyzeCall ∈ (run initialWinState (Except.ok ⟨[⟨⟨"answer"⟩⟩]⟩)
        [Event.mousePress MouseButton.left ⟨10, 10⟩,
         Event.mouseRelease MouseButton.left]).trace
    ∧ WinAction.crop ⟨10, 10, 10, 10⟩ ∈ (run initialWinState (Except.ok ⟨[⟨⟨"answer"⟩⟩]⟩)
        [Event.mousePress MouseButton.left ⟨10, 10⟩,
         Event.mouseRelease MouseButton.left]).trace
    ∧ WinAction.encode ∈ (run initialWinState (Except.ok ⟨[⟨⟨"answer"⟩⟩]⟩)
        [Event.mousePress MouseButton.left ⟨10, 10⟩,
         Event.mouseRelease MouseButton.left]).trace
    ∧ ((QRect.fromPoints ⟨10, 10⟩ ⟨10, 10⟩).normalized).width = 1
    ∧ ((QRect.fromPoints ⟨10, 10⟩ ⟨10, 10⟩).normalized).height = 1 := by
  decide

/-- C1 amended: a left-button release processes whenever both recorded
positions are present — even when start and end coincide after a click
with no drag, in which case the 1×1 rectangle is cropped, encoded and
analyzed; processing is skipped exactly when a recorded position is
absent. -/
theorem claim1_click_always_processes :
    (∀ (p : QPoint) (x : Except String Response),
      WinAction.analyzeCall ∈
        (run initialWinState x
          [Event.mousePress MouseButton.left p,
           Event.mouseRelease MouseButton.left]).trace)
    ∧ (∀ (sel : Bool) (e : Option QPoint) (cl : Bool) (d : Nat)
        (tr : List WinAction) (x : Except String Response),
        process_screenshot ⟨sel, none, e, cl, d, tr⟩ x = ⟨sel, none, e, cl, d, tr⟩) := by
  constructor
  · intro p x
    show WinAction.analyzeCall ∈
      (step (step initialWinState x (Event.mousePress MouseButton.left p)) x
        (Event.mouseRelease MouseButton.left)).trace
    simp only [step, initialWinState, process_screenshot, closeWin, pyTruthyPoint]
    cases hx : analyze_mcq x <;> simp [hx]
  · intro sel e cl d tr x
    rfl

/-- C5: whenever `analyze_mcq` raises, `process_screenshot` restores the
override (busy) cursor strictly before showing the error dialog (indices
4 and 5 of the trace), opens no `ResponseWindow`, closes the window, and
leaves the override-cursor depth where it started. -/
theorem claim5_failure_ordering (sel : Bool) (p q : QPoint) (d : Nat)
    (exchange : Except String Response) (m : String)
    (hfail : analyze_mcq exchange = Except.error m) :
    ((process_screenshot ⟨sel, some p, some q, false, d, []⟩ exchange).trace
      = [WinAction.setOverrideCursor, WinAction.crop (cropSelectionRect p q),
         WinAction.encode, WinAction.analyzeCall, WinAction.restoreCursor,
         WinAction.errorDialog m, WinAction.closeWindow])
    ∧ (∃ i j : Nat, i < j
        ∧ (process_screenshot ⟨sel, some p, some q, false, d, []⟩ exchange).trace[i]?
            = some WinAction.restoreCursor
        ∧ (process_screenshot ⟨sel, some p, some q, false, d, []⟩ exchange).trace[j]?
            = some (WinAction.errorDialog m))
    ∧ WinAction.openResponseWindow
        ∉ (process_screenshot ⟨sel, some p, some q, false, d, []⟩ exchange).trace
    ∧ (process_screenshot ⟨sel, some p, some q, false, d, []⟩ exchange).closed = true
    ∧ (process_screenshot ⟨sel, some p, some q, false, d, []⟩ exchange).overrideCursorDepth
        = d := by
  have htr : (process_screenshot ⟨sel, some p, some q, false, d, []⟩ exchange).trace
      = [WinAction.setOverrideCursor, WinAction.crop (cropSelectionRect p q),
         WinAction.encode, WinAction.analyzeCall, WinAction.restoreCursor,
         WinAction.errorDialog m, WinAction.closeWindow] := by
    simp [process_screenshot, pyTruthyPoint, closeWin, hfail, cropSelectionRect]
  refine ⟨htr, ⟨4, 5, by omega, ?_, ?_⟩, ?_, ?_, ?_⟩
  · rw [htr]
    rfl
  · rw [htr]
    rfl
  · rw [htr]
    simp
  · simp [process_screenshot, pyTruthyPoint, closeWin, hfail]
  · simp [process_screenshot, pyTruthyPoint, closeWin, hfail]

/-- Witness for C5 at a concrete state and failing exchange. -/
theorem claim5_failure_ordering_witness :
    analyze_mcq (Except.error "boom") = Except.error ("AI analysis failed: boom")
    ∧ (((process_screenshot ⟨true, some ⟨1, 2⟩, some ⟨3, 4⟩, false, 0, []⟩
          (Except.error "boom")).trace
        = [WinAction.setOverrideCursor, WinAction.crop (cropSelectionRect ⟨1, 2⟩ ⟨3, 4⟩),
           WinAction.encode, WinAction.analyzeCall, WinAction.restoreCursor,
           WinAction.errorDialog ("AI analysis failed: boom"), WinAction.closeWindow])
      ∧ (∃ i j : Nat, i < j
          ∧ (process_screenshot ⟨true, some ⟨1, 2⟩, some ⟨3, 4⟩, false, 0, []⟩
              (Except.error "boom")).trace[i]? = some WinAction.restoreCursor
          ∧ (process_screenshot ⟨true, some ⟨1, 2⟩, some ⟨3, 4⟩, false, 0, []⟩
              (Except.error "boom")).trace[j]?
              = some (WinAction.errorDialog ("AI analysis failed: boom")))
      ∧ WinAction.openResponseWindow
          ∉ (process_screenshot ⟨true, some ⟨1, 2⟩, some ⟨3, 4⟩, false, 0, []⟩
              (Except.error "boom")).trace
      ∧ (process_screenshot ⟨true, some ⟨1, 2⟩, some ⟨3, 4⟩, false, 0, []⟩
          (Except.error "boom")).closed = true
      ∧ (process_screenshot ⟨true, some ⟨1, 2⟩, some ⟨3, 4⟩, false, 0, []⟩
          (Except.error "boom")).overrideCursorDepth = 0) :=
  ⟨rfl,
   claim5_failure_ordering true ⟨1, 2⟩ ⟨3, 4⟩ 0 (Except.error "boom")
     ("AI analysis failed: boom") rfl⟩

/-- C10: the rectangle `process_screenshot` crops and sends for analysis
is exactly the rectangle `paintEvent` re-draws unmasked as the spotlight
— both are `QRect(start_pos, end_pos).normalized()` — and the cropped
rectangle recorded in the trace is that painted rectangle. -/
theorem claim10_paint_crop_agree :
    (∀ p q : QPoint, cropSelectionRect p q = paintSelectionRect p q)
    ∧ ∀ (p q : QPoint) (sel cl : Bool) (d : Nat) (x : Except String Response),
        WinAction.crop (paintSelectionRect p q)
          ∈ (process_screenshot ⟨sel, some p, some q, cl, d, []⟩ x).trace := by
  constructor
  · intro p q
    rfl
  · intro p q sel cl d x
    simp only [process_screenshot, pyTruthyPoint, closeWin, paintSelectionRect]
    cases hx : analyze_mcq x <;> cases cl <;> simp [hx]
